import Mathlib

/-!
Shallow embedding of the uwaterloo-facility-notifier change-detection and
notification-fanout pipeline (src/lambda_function.py together with the data
model of src/utils.py and the delivery code of src/discord_utils.py and
src/telegram_utils.py).

Modelling conventions:
* Raw calendar entries are records of their `title`/`start`/`end` string
  fields; structural equality of the Lean structure models Python dict
  equality, which the diff algorithm depends on.
* `dateutil.parser.parse` applied to an entry's `start` field is only used
  by the diff through its ordering against the run instant `now`; it is
  abstracted as a parameter `parse : String → Int`, and `now : Int` is the
  zone-stripped run instant.  The concrete strftime-style rendering used by
  `pretty_print_time_range` is modelled concretely on fixed-width ISO
  date-time strings.
* HTTP effects are modelled by passing response functions: the calendar
  source and the Discord webhooks become functions from the request to an
  `HttpResponse`, and a Telegram send becomes `Int → Except String Unit`
  (an `Except.error` models a raised `telegram.error`).
* The DynamoDB table is modelled by its read function
  `String → Option (List Entry)` (a `get` miss is `none`), and the handler
  returns the list of `put` calls it issues instead of performing them.
-/

namespace UWFN

/-- A raw calendar entry as returned by the Warrior API: a record with at
least `title`, `start` and `end` date-time string fields.  Structural
equality on the fields models Python dict equality. -/
structure Entry where
  title : String
  start : String
  «end» : String
  deriving DecidableEq, Repr

/-- `ReqParam` from src/lambda_function.py: parameters of one API request,
a frozen dataclass compared by value equality of its three fields. -/
structure ReqParam where
  facility_id : String
  start : String
  «end» : String
  deriving DecidableEq, Repr

/-- `EventConfig` from src/lambda_function.py: configuration of one tracked
event type.  `event_filter` is the membership predicate over raw entries. -/
structure EventConfig where
  facility_id : String
  facility_name : String
  lookahead_days : Nat
  event_name : String
  event_filter : Entry → Bool

/-- One field of a Discord embed dict (`name`/`value` pair). -/
structure EmbedField where
  name : String
  value : String
  deriving DecidableEq, Repr

/-- A Discord embed dict as built by `get_event_changes`. -/
structure Embed where
  fields : List EmbedField
  color : String
  timestamp : String
  deriving DecidableEq, Repr

/-- An HTTP response as observed by the code: status code and body text. -/
structure HttpResponse where
  status_code : Nat
  text : String
  deriving DecidableEq, Repr

/-- A structured delivery-error record (`message` plus underlying `error`)
as collected by `send_discord_message`. -/
structure DeliveryError where
  message : String
  error : String
  deriving DecidableEq, Repr

/-! ### Date-time parsing and strftime rendering (concrete model)

`dateutil.parser.parse` on the fixed-width ISO strings used by this
program (`YYYY-MM-DDTHH:MM:SS` with an optional offset) yields a datetime
whose local fields are the written digits; `strftime` then formats those
local fields.  We extract the fields positionally. -/

/-- Read a string of decimal digits as a number (the digit characters of
the fixed-width ISO fields). -/
def digits_to_nat (cs : List Char) : Nat :=
  cs.foldl (fun a c => a * 10 + (c.toNat - 48)) 0

/-- The local (naive) fields of a parsed date-time. -/
structure DateTimeFields where
  year : Nat
  month : Nat
  day : Nat
  hour : Nat
  minute : Nat
  second : Nat
  deriving DecidableEq, Repr

/-- Positional extraction of the local fields from a fixed-width ISO
date-time string `YYYY-MM-DDTHH:MM:SS[±HHMM]`, as `dateutil.parser.parse`
produces for the strings this program handles. -/
def parse_datetime (s : String) : DateTimeFields :=
  let cs := s.toList
  { year := digits_to_nat (cs.take 4)
    month := digits_to_nat ((cs.drop 5).take 2)
    day := digits_to_nat ((cs.drop 8).take 2)
    hour := digits_to_nat ((cs.drop 11).take 2)
    minute := digits_to_nat ((cs.drop 14).take 2)
    second := digits_to_nat ((cs.drop 17).take 2) }

/-- Day of week of a civil date (0 = Sunday), Sakamoto's method; backs the
`%a` directive of `strftime`. -/
def weekday_index (y m d : Nat) : Nat :=
  let t := [0, 3, 2, 5, 0, 3, 5, 1, 4, 6, 2, 4]
  let y := if m < 3 then y - 1 else y
  (y + y / 4 - y / 100 + y / 400 + t.getD (m - 1) 0 + d) % 7

/-- `%a`: abbreviated weekday name. -/
def weekday_abbrev (w : Nat) : String :=
  ["Sun", "Mon", "Tue", "Wed", "Thu", "Fri", "Sat"].getD w ""

/-- `%b`: abbreviated month name. -/
def month_abbrev (m : Nat) : String :=
  ["Jan", "Feb", "Mar", "Apr", "May", "Jun",
   "Jul", "Aug", "Sep", "Oct", "Nov", "Dec"].getD (m - 1) ""

/-- Zero-padded two-digit rendering (`%d`, `%I`, `%M`). -/
def two_digits (n : Nat) : String :=
  if n < 10 then "0" ++ toString n else toString n

/-- The 12-hour clock hour used by `%I`. -/
def hour12 (h : Nat) : Nat :=
  if h % 12 = 0 then 12 else h % 12

/-- `%p`: AM/PM marker. -/
def am_pm (h : Nat) : String :=
  if h < 12 then "AM" else "PM"

/-- `strftime('%a %b %d %I:%M%p')` on the local fields. -/
def strftime_full (dt : DateTimeFields) : String :=
  weekday_abbrev (weekday_index dt.year dt.month dt.day) ++ " " ++
    month_abbrev dt.month ++ " " ++ two_digits dt.day ++ " " ++
    two_digits (hour12 dt.hour) ++ ":" ++ two_digits dt.minute ++ am_pm dt.hour

/-- `strftime('%I:%M%p')` on the local fields. -/
def strftime_time_only (dt : DateTimeFields) : String :=
  two_digits (hour12 dt.hour) ++ ":" ++ two_digits dt.minute ++ am_pm dt.hour

/-- `pretty_print_time_range` from src/lambda_function.py (identical in
src/utils.py): same-day ranges show the end as time only, cross-day ranges
repeat the end's full weekday/month/day rendering.  The `date()` equality
test compares the year/month/day fields. -/
def pretty_print_time_range (start_s end_s : String) : String :=
  let s := parse_datetime start_s
  let e := parse_datetime end_s
  if s.year = e.year ∧ s.month = e.month ∧ s.day = e.day then
    strftime_full s ++ " - " ++ strftime_time_only e
  else
    strftime_full s ++ " - " ++ strftime_full e

/-! ### Change detector (src/lambda_function.py, `get_event_changes`) -/

/-- The `deleted_upcoming_entries` comprehension of `get_event_changes`:
entries of the stored snapshot that are structurally absent from the
current snapshot and whose parsed start instant is strictly after `now`. -/
def deleted_upcoming (parse : String → Int) (now : Int)
    (stored_cal_entries current_cal_entries : List Entry) : List Entry :=
  stored_cal_entries.filter
    (fun e => decide (e ∉ current_cal_entries ∧ now < parse e.start))

/-- The `new_upcoming_entries` comprehension of `get_event_changes`:
entries of the current snapshot that are structurally absent from the
stored snapshot and whose parsed start instant is strictly after `now`. -/
def new_upcoming (parse : String → Int) (now : Int)
    (stored_cal_entries current_cal_entries : List Entry) : List Entry :=
  current_cal_entries.filter
    (fun e => decide (e ∉ stored_cal_entries ∧ now < parse e.start))

/-- The value string of a change embed: the concatenated pretty-printed
time range of every listed entry, each followed by a newline. -/
def time_range_lines (entries : List Entry) : String :=
  String.join (entries.map (fun e => pretty_print_time_range e.start e.«end» ++ "\n"))

/-- `get_event_changes` from src/lambda_function.py: builds the list of
Discord change embeds, appending a red `Cancelled ...` embed when some
upcoming entry disappeared and then a green `New ...` embed when some
upcoming entry appeared.  `now_iso` is `now.isoformat()`. -/
def get_event_changes (parse : String → Int) (event_config : EventConfig)
    (stored_cal_entries current_cal_entries : List Entry)
    (now : Int) (now_iso : String) : List Embed :=
  let deleted_upcoming_entries :=
    deleted_upcoming parse now stored_cal_entries current_cal_entries
  let new_upcoming_entries :=
    new_upcoming parse now stored_cal_entries current_cal_entries
  (if !deleted_upcoming_entries.isEmpty then
    [{ fields := [⟨"Cancelled " ++ event_config.event_name ++ " Sessions at " ++
          event_config.facility_name, time_range_lines deleted_upcoming_entries⟩]
       color := "16711680"
       timestamp := now_iso }]
   else []) ++
  (if !new_upcoming_entries.isEmpty then
    [{ fields := [⟨"New " ++ event_config.event_name ++ " Sessions at " ++
          event_config.facility_name, time_range_lines new_upcoming_entries⟩]
       color := "65280"
       timestamp := now_iso }]
   else [])

/-! ### Discord and Telegram delivery -/

/-- The error record appended by `send_discord_message` for a webhook that
did not answer 204. -/
def discord_error_record (status : Nat) (url text : String) : DeliveryError :=
  { message := "Error: could not send Discord message (status code " ++
      toString status ++ ", webhook url " ++ url ++ ")"
    error := text }

/-- One iteration of the `send_discord_message` webhook loop: post to the
URL (`respond url` is the response `r`) and append an error record when
the status is not 204. -/
def discord_step (respond : String → HttpResponse)
    (errors : List DeliveryError) (url : String) : List DeliveryError :=
  if (respond url).status_code ≠ 204 then
    errors ++ [discord_error_record (respond url).status_code url (respond url).text]
  else errors

/-- `send_discord_message` (loop of src/discord_utils.py, identical in
src/lambda_function.py): posts the composed payload to every configured
webhook URL in turn — the payload is the same for every URL and does not
influence delivery, so it is elided — and collects one error record per
URL whose response status is not 204.  `respond url` is the response of
posting to `url`.  Returns the URLs posted to and the collected errors. -/
def send_discord_message (webhook_urls : List String)
    (respond : String → HttpResponse) : List String × List DeliveryError :=
  (webhook_urls, webhook_urls.foldl (discord_step respond) [])

/-- The `for chat_id in subscribers` send loop of
`send_telegram_updates_async` (src/telegram_utils.py): each send is
awaited in turn with no surrounding try/except, so a raised send error
(`Except.error`) propagates and the remaining subscribers are not
attempted.  Returns the subscribers actually sent to and either the first
raised error or unit. -/
def telegram_send_loop (send : Int → Except String Unit) :
    List Int → List Int × Except String Unit
  | [] => ([], Except.ok ())
  | chat_id :: rest =>
    match send chat_id with
    | Except.error e => ([chat_id], Except.error e)
    | Except.ok _ =>
      let r := telegram_send_loop send rest
      (chat_id :: r.1, r.2)

/-- `send_telegram_updates_async` from src/telegram_utils.py: with an
unconfigured bot token (Python `not TELEGRAM_BOT_TOKEN`, i.e. the empty
string) it is a no-op returning the empty error list; otherwise it sends
the composed message to every subscriber in turn and returns `[]`, with a
raised send error propagating as `Except.error`.  The composed message
text does not influence delivery and is elided. -/
def send_telegram_updates (token : String) (subscribers : List Int)
    (send : Int → Except String Unit) : List Int × Except String (List DeliveryError) :=
  if token = "" then ([], Except.ok [])
  else
    let r := telegram_send_loop send subscribers
    (r.1, r.2.map (fun _ => []))

/-! ### Calendar fetching and the snapshot store -/

/-- `get_calendar_data` from src/lambda_function.py: GETs the calendar
endpoint for the request parameters; a non-200 status raises (models as
`Except.error` with the source's message), otherwise the body is parsed as
JSON (`parse_json`, whose failure is the raised JSON decode error). -/
def get_calendar_data (respond : ReqParam → HttpResponse)
    (parse_json : String → Except String (List Entry)) (rp : ReqParam) :
    Except String (List Entry) :=
  let r := respond rp
  if r.status_code ≠ 200 then
    Except.error ("Error: could not get calendar data for facility " ++
      rp.facility_id ++ " (status code " ++ toString r.status_code ++ ")")
  else parse_json r.text

/-- The fan-in `{p: f.result() for p, f in calendar_data_futures.items()}`:
collecting every deduplicated fetch result, where the first raised fetch
error propagates out of the collection. -/
def collect_calendar_data (fetch : ReqParam → Except String (List Entry)) :
    List ReqParam → Except String (List (ReqParam × List Entry))
  | [] => Except.ok []
  | p :: rest =>
    match fetch p with
    | Except.error e => Except.error e
    | Except.ok v =>
      match collect_calendar_data fetch rest with
      | Except.error e => Except.error e
      | Except.ok tail => Except.ok ((p, v) :: tail)

/-- The dictionary access `calendar_data[p]`. -/
def lookup_calendar (calendar_data : List (ReqParam × List Entry)) (p : ReqParam) :
    List Entry :=
  match calendar_data.find? (fun q => decide (q.1 = p)) with
  | some q => q.2
  | none => []

/-- `make_record_name` from src/lambda_function.py. -/
def make_record_name (event_config : EventConfig) : String :=
  "cal_entries_" ++ event_config.facility_id ++ "_" ++ event_config.event_name

/-- `get_stored_calendar_entries` from src/lambda_function.py:
`table.get(record_name) or []` — a missing snapshot (`None`) becomes the
empty list.  `tableGet` is the table's read function. -/
def get_stored_calendar_entries (tableGet : String → Option (List Entry))
    (event_config : EventConfig) : List Entry :=
  (tableGet (make_record_name event_config)).getD []

/-- `filter_calendar_entries` from src/lambda_function.py. -/
def filter_calendar_entries (event_config : EventConfig) (cal_entries : List Entry) :
    List Entry :=
  cal_entries.filter event_config.event_filter

/-! ### The pipeline orchestrator (`lambda_handler`) -/

/-- The `req_params` list built by `lambda_handler`: one `ReqParam` per
`EventConfig`, sharing the run's start-of-day string and using the
end-of-day string of `now + lookahead_days` (abstracted as `fmtEnd` of the
lookahead). -/
def make_req_params (cfgs : List EventConfig) (fmtStart : String)
    (fmtEnd : Nat → String) : List ReqParam :=
  cfgs.map (fun c => ⟨c.facility_id, fmtStart, fmtEnd c.lookahead_days⟩)

/-- The deduplicated fetch set `set(req_params)` of `lambda_handler`: one
fetch is issued per distinct `ReqParam` value. -/
def issued_fetch_params (cfgs : List EventConfig) (fmtStart : String)
    (fmtEnd : Nat → String) : List ReqParam :=
  (make_req_params cfgs fmtStart fmtEnd).dedup

/-- Pointwise zip of three lists, truncating at the shortest (Python
`zip`). -/
def zip3 {α β γ : Type} : List α → List β → List γ → List (α × β × γ)
  | a :: as, b :: bs, c :: cs => (a, b, c) :: zip3 as bs cs
  | _, _, _ => []

/-- The per-config stored snapshots loaded by `lambda_handler` through
`get_stored_calendar_entries`. -/
def stored_list_of (tableGet : String → Option (List Entry))
    (cfgs : List EventConfig) : List (List Entry) :=
  cfgs.map (get_stored_calendar_entries tableGet)

/-- The per-config current snapshots of `lambda_handler`: each config's
share of the fetched data filtered by its predicate. -/
def current_list_of (calendar_data : List (ReqParam × List Entry))
    (cfgs : List EventConfig) (req_params : List ReqParam) : List (List Entry) :=
  (cfgs.zip req_params).map
    (fun cp => filter_calendar_entries cp.1 (lookup_calendar calendar_data cp.2))

/-- The `changes_list` of `lambda_handler`: `get_event_changes` applied to
each (config, stored, current) triple. -/
def changes_list_of (parse : String → Int) (now : Int) (now_iso : String)
    (cfgs : List EventConfig) (stored current : List (List Entry)) :
    List (List Embed) :=
  (zip3 cfgs stored current).map
    (fun t => get_event_changes parse t.1 t.2.1 t.2.2 now now_iso)

/-- The persistence loop of `lambda_handler`: for each (config, stored,
current) triple whose current snapshot differs structurally from the
stored one, a `put(make_record_name(c), current)` call is issued. -/
def persist_puts (cfgs : List EventConfig) (stored current : List (List Entry)) :
    List (String × List Entry) :=
  (zip3 cfgs stored current).filterMap
    (fun t => if t.2.2 ≠ t.2.1 then some (make_record_name t.1, t.2.2) else none)

/-- The body returned by `lambda_handler`: a fetch failure
(`{message, error}`), a delivery failure (`{errors}`), or success
(`{message, message_sent}`). -/
inductive HandlerBody where
  | fetchError (message : String) (error : String)
  | deliveryErrors (errors : List DeliveryError)
  | success (message : String) (message_sent : Bool)
  deriving DecidableEq, Repr

/-- The `{statusCode, body}` dict returned by `lambda_handler`. -/
structure LambdaResponse where
  statusCode : Nat
  body : HandlerBody
  deriving DecidableEq, Repr

/-- One observed run of `lambda_handler`: its returned response, the
Discord webhook URLs actually posted to, and the snapshot-store `put`
calls issued (in order). -/
structure RunOutput where
  response : LambdaResponse
  discord_attempts : List String
  puts : List (String × List Entry)
  deriving DecidableEq, Repr

/-- `lambda_handler` from src/lambda_function.py, from the point where the
run instant and table are in hand: builds the request parameters, collects
the deduplicated fetches (any fetch error yields the 500
`could not get calendar data` response with no notification and no
persistence), filters each config's entries, diffs against the stored
snapshots, sends the Discord message iff any config has changes, returns
the 500 `{errors}` response without persisting when delivery produced
errors, and otherwise persists each changed snapshot and reports
success. -/
def lambda_handler (cfgs : List EventConfig)
    (tableGet : String → Option (List Entry))
    (fetch : ReqParam → Except String (List Entry))
    (parse : String → Int) (now : Int) (now_iso : String)
    (fmtStart : String) (fmtEnd : Nat → String)
    (webhook_urls : List String) (respond : String → HttpResponse) : RunOutput :=
  match collect_calendar_data fetch (issued_fetch_params cfgs fmtStart fmtEnd) with
  | Except.error e =>
    ⟨⟨500, HandlerBody.fetchError "Error: could not get calendar data" e⟩, [], []⟩
  | Except.ok calendar_data =>
    let stored_list := stored_list_of tableGet cfgs
    let current_list :=
      current_list_of calendar_data cfgs (make_req_params cfgs fmtStart fmtEnd)
    let changes_list := changes_list_of parse now now_iso cfgs stored_list current_list
    let any_changes := changes_list.any (fun ch => !ch.isEmpty)
    let errors :=
      if any_changes then (send_discord_message webhook_urls respond).2 else []
    let attempts :=
      if any_changes then (send_discord_message webhook_urls respond).1 else []
    if errors ≠ [] then
      ⟨⟨500, HandlerBody.deliveryErrors errors⟩, attempts, []⟩
    else
      ⟨⟨200, HandlerBody.success "Success" any_changes⟩, attempts,
        persist_puts cfgs stored_list current_list⟩

/-! ### The EventChanges model of the latest iteration (src/utils.py) -/

/-- `ChangeType` from src/utils.py. -/
inductive ChangeType where
  | NEW
  | CANCELLED
  deriving DecidableEq, BEq, Repr

/-- `TimeRange` from src/utils.py. -/
structure TimeRange where
  start : String
  «end» : String
  deriving DecidableEq, Repr

/-- `EventChanges` from src/utils.py: one config's mapping from
`ChangeType` to an ordered sequence of `TimeRange` (the Python dict is
modelled as an association list in key-insertion order). -/
structure EventChanges where
  event_config : EventConfig
  changes : List (ChangeType × List TimeRange)

/-- Modelled from the spec: the `EventChanges`-returning change detector
`detect(previous, current, now)` of the repository's latest iteration is
not among the source files (only its data type `EventChanges` in
src/utils.py and its consumers `format_changes_for_discord` and
`format_changes_for_telegram` are).  Following §4.2 of the specification:
`new`/`cancelled` are the structural-membership diffs restricted to future
entries, and the result always carries a sequence for both `ChangeType`s,
empty when there is no change of that type. -/
def detect (parse : String → Int) (event_config : EventConfig)
    (previous current : List Entry) (now : Int) : EventChanges :=
  { event_config := event_config
    changes :=
      [(ChangeType.NEW,
        (new_upcoming parse now previous current).map (fun e => ⟨e.start, e.«end»⟩)),
       (ChangeType.CANCELLED,
        (deleted_upcoming parse now previous current).map (fun e => ⟨e.start, e.«end»⟩))] }

/-! ### Theorems -/

/-- C1: for every pair of snapshots and instant, an entry is in the NEW
list iff it is structurally present in the current snapshot, absent from
the stored one, and its start instant is strictly after `now`; and it is
in the CANCELLED (deleted) list iff it is structurally present in the
stored snapshot, absent from the current one, and its start instant is
strictly after `now`. -/
theorem diff_membership (parse : String → Int) (now : Int)
    (prev curr : List Entry) (e : Entry) :
    (e ∈ new_upcoming parse now prev curr ↔
      e ∈ curr ∧ e ∉ prev ∧ now < parse e.start) ∧
    (e ∈ deleted_upcoming parse now prev curr ↔
      e ∈ prev ∧ e ∉ curr ∧ now < parse e.start) := by
  constructor
  · simp [new_upcoming, List.mem_filter]
  · simp [deleted_upcoming, List.mem_filter]

/-- C6: the time-range pretty-printer renders a same-day range with the
end as time only, and a cross-day range with the end's full
weekday/month/day rendering. -/
theorem time_range_rendering :
    pretty_print_time_range "2024-01-01T12:00:00-0500" "2024-01-01T13:00:00-0500" =
      "Mon Jan 01 12:00PM - 01:00PM" ∧
    pretty_print_time_range "2024-01-01T12:00:00-0500" "2024-01-02T13:00:00-0500" =
      "Mon Jan 01 12:00PM - Tue Jan 02 01:00PM" :=
  ⟨rfl, rfl⟩

/-- C9: with an unconfigured (empty) bot token, the Telegram fanout sends
to nobody and returns the empty error list — a no-op, not a failure. -/
theorem telegram_disabled_noop (subscribers : List Int)
    (send : Int → Except String Unit) :
    send_telegram_updates "" subscribers send = ([], Except.ok []) :=
  rfl

/-- C10: when no snapshot is stored under the config's record name, the
loaded previous snapshot is the empty sequence, so the diff reports every
future entry of the current snapshot as NEW and none as CANCELLED. -/
theorem first_run_all_new (tableGet : String → Option (List Entry))
    (ec : EventConfig) (parse : String → Int) (now : Int) (curr : List Entry)
    (h : tableGet (make_record_name ec) = none) :
    get_stored_calendar_entries tableGet ec = [] ∧
    new_upcoming parse now (get_stored_calendar_entries tableGet ec) curr =
      curr.filter (fun e => decide (now < parse e.start)) ∧
    deleted_upcoming parse now (get_stored_calendar_entries tableGet ec) curr = [] := by
  have hs : get_stored_calendar_entries tableGet ec = [] := by
    simp [get_stored_calendar_entries, h]
  refine ⟨hs, ?_, by rw [hs]; rfl⟩
  rw [hs]
  unfold new_upcoming
  refine List.filter_congr ?_
  intro a _
  simp

/-- Witness for C10 at a concrete first-run input. -/
theorem first_run_all_new_witness :
    get_stored_calendar_entries (fun _ => none)
      ⟨"f1", "CIF Arena", 7, "Open Rec Skate", fun _ => true⟩ = [] ∧
    new_upcoming (fun _ => 1) 0
      (get_stored_calendar_entries (fun _ => none)
        ⟨"f1", "CIF Arena", 7, "Open Rec Skate", fun _ => true⟩)
      [⟨"Open Rec", "2024-01-01T12:00:00", "2024-01-01T13:00:00"⟩] =
      [(⟨"Open Rec", "2024-01-01T12:00:00", "2024-01-01T13:00:00"⟩ : Entry)].filter
        (fun e => decide ((0 : Int) < (fun _ => (1 : Int)) e.start)) ∧
    deleted_upcoming (fun _ => 1) 0
      (get_stored_calendar_entries (fun _ => none)
        ⟨"f1", "CIF Arena", 7, "Open Rec Skate", fun _ => true⟩)
      [⟨"Open Rec", "2024-01-01T12:00:00", "2024-01-01T13:00:00"⟩] = [] :=
  first_run_all_new (fun _ => none) _ (fun _ => 1) 0 _ rfl

/-- C4: one fetch is issued per unique request-parameter triple, with
uniqueness decided by value equality of the `ReqParam` fields. -/
theorem fetch_dedupe (cfgs : List EventConfig) (fmtStart : String)
    (fmtEnd : Nat → String)
    (hdup : ¬ (make_req_params cfgs fmtStart fmtEnd).Nodup)
    (p : ReqParam) (hp : p ∈ make_req_params cfgs fmtStart fmtEnd) :
    (issued_fetch_params cfgs fmtStart fmtEnd).count p = 1 := by
  unfold issued_fetch_params
  rw [List.count_dedup]
  simp [hp]

/-- Witness for C4: two configs sharing the same facility and lookahead
resolve to duplicate request parameters, yet one fetch is issued. -/
theorem fetch_dedupe_witness :
    (issued_fetch_params
      [⟨"6f60aca9", "CIF Arena", 7, "Open Rec Skate", fun _ => true⟩,
       ⟨"6f60aca9", "CIF Arena", 7, "Figure Skating Club", fun _ => false⟩]
      "2024-01-01T00:00:00-0500" (fun _ => "2024-01-08T23:59:59-0500")).count
      ⟨"6f60aca9", "2024-01-01T00:00:00-0500", "2024-01-08T23:59:59-0500"⟩ = 1 :=
  fetch_dedupe _ _ _ (by decide) _ (by decide)

/-- Zipping a list against itself twice pairs each element with itself, so
the persistence loop finds nothing to overwrite. -/
lemma persist_puts_self (cfgs : List EventConfig) (l : List (List Entry)) :
    persist_puts cfgs l l = [] := by
  induction cfgs generalizing l with
  | nil => rfl
  | cons c cs ih =>
    cases l with
    | nil => rfl
    | cons s ls =>
      show persist_puts (c :: cs) (s :: ls) (s :: ls) = []
      unfold persist_puts zip3
      simp only [List.filterMap_cons, ne_eq, not_true_eq_false, if_false]
      simpa [persist_puts] using ih ls

/-- Every issued `put` comes from a zipped (config, stored, current)
triple whose current snapshot differs structurally from the stored one. -/
lemma persist_puts_mem {cfgs : List EventConfig} {stored current : List (List Entry)}
    {x : String × List Entry} (hx : x ∈ persist_puts cfgs stored current) :
    ∃ c s cur, (c, s, cur) ∈ zip3 cfgs stored current ∧ cur ≠ s ∧
      x = (make_record_name c, cur) := by
  unfold persist_puts at hx
  rw [List.mem_filterMap] at hx
  obtain ⟨t, ht, hf⟩ := hx
  by_cases h : t.2.2 ≠ t.2.1
  · rw [if_pos h] at hf
    exact ⟨t.1, t.2.1, t.2.2, by simpa using ht, h, (Option.some.inj hf).symm⟩
  · rw [if_neg h] at hf
    exact absurd hf (by simp)

/-- C3: diffing structurally equal snapshots yields empty NEW/CANCELLED
lists and no change embeds; zipping equal stored and current snapshot
lists issues no `put`; and in general — also through `lambda_handler` — a
snapshot is overwritten only when the newly computed filtered snapshot
differs structurally from the stored one. -/
theorem noop_idempotence :
    (∀ (parse : String → Int) (now : Int) (now_iso : String) (ec : EventConfig)
        (l : List Entry),
      deleted_upcoming parse now l l = [] ∧ new_upcoming parse now l l = [] ∧
      get_event_changes parse ec l l now now_iso = []) ∧
    (∀ (cfgs : List EventConfig) (l : List (List Entry)),
      persist_puts cfgs l l = []) ∧
    (∀ (cfgs : List EventConfig) (stored current : List (List Entry))
        (x : String × List Entry), x ∈ persist_puts cfgs stored current →
      ∃ c s cur, (c, s, cur) ∈ zip3 cfgs stored current ∧ cur ≠ s ∧
        x = (make_record_name c, cur)) ∧
    (∀ (cfgs : List EventConfig) (tableGet : String → Option (List Entry))
        (fetch : ReqParam → Except String (List Entry)) (parse : String → Int)
        (now : Int) (now_iso fmtStart : String) (fmtEnd : Nat → String)
        (webhook_urls : List String) (respond : String → HttpResponse)
        (calendar_data : List (ReqParam × List Entry)) (x : String × List Entry),
      collect_calendar_data fetch (issued_fetch_params cfgs fmtStart fmtEnd) =
        Except.ok calendar_data →
      x ∈ (lambda_handler cfgs tableGet fetch parse now now_iso fmtStart fmtEnd
            webhook_urls respond).puts →
      ∃ c s cur,
        (c, s, cur) ∈ zip3 cfgs (stored_list_of tableGet cfgs)
          (current_list_of calendar_data cfgs
            (make_req_params cfgs fmtStart fmtEnd)) ∧
        cur ≠ s ∧ x = (make_record_name c, cur)) := by
  refine ⟨?_, fun cfgs l => persist_puts_self cfgs l,
    fun _ _ _ _ hx => persist_puts_mem hx, ?_⟩
  · intro parse now now_iso ec l
    have hdel : deleted_upcoming parse now l l = [] := by
      unfold deleted_upcoming
      rw [List.filter_eq_nil]
      intro a ha
      simp [ha]
    have hnew : new_upcoming parse now l l = [] := by
      unfold new_upcoming
      rw [List.filter_eq_nil]
      intro a ha
      simp [ha]
    exact ⟨hdel, hnew, by simp [get_event_changes, hdel, hnew]⟩
  · intro cfgs tableGet fetch parse now now_iso fmtStart fmtEnd webhook_urls
      respond calendar_data x hcol hx
    simp only [lambda_handler, hcol] at hx
    split at hx <;> split at hx <;>
      first
        | exact persist_puts_mem (by simpa using hx)
        | simp at hx

/-- Witness for C3 at concrete inputs: a no-change diff yields no embeds,
equal snapshot lists issue no `put`, and a run that does put (previous
snapshot absent, one new entry, delivery succeeding with status 204) only
overwrites with a differing snapshot. -/
theorem noop_idempotence_witness :
    get_event_changes (fun _ => 1)
      ⟨"f1", "CIF Arena", 7, "Open Rec Skate", fun _ => true⟩
      [⟨"Open Rec", "2024-01-01T12:00:00", "2024-01-01T13:00:00"⟩]
      [⟨"Open Rec", "2024-01-01T12:00:00", "2024-01-01T13:00:00"⟩] 0 "t" = [] ∧
    persist_puts [⟨"f1", "CIF Arena", 7, "Open Rec Skate", fun _ => true⟩]
      [[⟨"Open Rec", "2024-01-01T12:00:00", "2024-01-01T13:00:00"⟩]]
      [[⟨"Open Rec", "2024-01-01T12:00:00", "2024-01-01T13:00:00"⟩]] = [] ∧
    (∃ c s cur,
      (c, s, cur) ∈ zip3
        [(⟨"f1", "CIF Arena", 7, "Open Rec Skate", fun _ => true⟩ : EventConfig)]
        [([] : List Entry)]
        [[⟨"Open Rec", "2024-01-01T12:00:00", "2024-01-01T13:00:00"⟩]] ∧
      cur ≠ s ∧
      ((make_record_name ⟨"f1", "CIF Arena", 7, "Open Rec Skate", fun _ => true⟩,
        [⟨"Open Rec", "2024-01-01T12:00:00", "2024-01-01T13:00:00"⟩]) :
          String × List Entry) = (make_record_name c, cur)) ∧
    (∃ c s cur,
      (c, s, cur) ∈ zip3
        [(⟨"f1", "CIF Arena", 7, "Open Rec Skate", fun _ => true⟩ : EventConfig)]
        (stored_list_of (fun _ => none)
          [⟨"f1", "CIF Arena", 7, "Open Rec Skate", fun _ => true⟩])
        (current_list_of
          [(⟨"f1", "s", "e"⟩, [⟨"Open Rec", "2024-01-01T12:00:00", "2024-01-01T13:00:00"⟩])]
          [⟨"f1", "CIF Arena", 7, "Open Rec Skate", fun _ => true⟩]
          (make_req_params [⟨"f1", "CIF Arena", 7, "Open Rec Skate", fun _ => true⟩]
            "s" (fun _ => "e"))) ∧
      cur ≠ s ∧
      ((make_record_name ⟨"f1", "CIF Arena", 7, "Open Rec Skate", fun _ => true⟩,
        [⟨"Open Rec", "2024-01-01T12:00:00", "2024-01-01T13:00:00"⟩]) :
          String × List Entry) = (make_record_name c, cur)) :=
  ⟨(noop_idempotence.1 (fun _ => 1) 0 "t" _ _).2.2,
   noop_idempotence.2.1 _ _,
   noop_idempotence.2.2.1 _ _ _ _ (by decide),
   noop_idempotence.2.2.2 _ (fun _ => none)
     (fun _ => Except.ok [⟨"Open Rec", "2024-01-01T12:00:00", "2024-01-01T13:00:00"⟩])
     (fun _ => 1) 0 "t" "s" (fun _ => "e") ["u"] (fun _ => ⟨204, ""⟩) _ _
     rfl (by decide)⟩

/-- C8: when both diff lists are empty, the `EventChanges` produced by the
detector still carries an explicit empty sequence under both
`ChangeType` keys, distinct from an absent key. -/
theorem no_change_explicit_empty (parse : String → Int) (ec : EventConfig)
    (previous current : List Entry) (now : Int)
    (hnew : new_upcoming parse now previous current = [])
    (hdel : deleted_upcoming parse now previous current = []) :
    (detect parse ec previous current now).changes.lookup ChangeType.NEW =
      some [] ∧
    (detect parse ec previous current now).changes.lookup ChangeType.CANCELLED =
      some [] ∧
    (detect parse ec previous current now).changes.lookup ChangeType.NEW ≠
      none := by
  have hc : (detect parse ec previous current now).changes =
      [(ChangeType.NEW, []), (ChangeType.CANCELLED, [])] := by
    simp [detect, hnew, hdel]
  rw [hc]
  exact ⟨rfl, rfl, by decide⟩

/-- Witness for C8 with two equal singleton snapshots. -/
theorem no_change_explicit_empty_witness :
    (detect (fun _ => 1) ⟨"f1", "CIF Arena", 7, "Open Rec Skate", fun _ => true⟩
      [⟨"Open Rec", "s", "e"⟩] [⟨"Open Rec", "s", "e"⟩] 0).changes.lookup
      ChangeType.NEW = some [] ∧
    (detect (fun _ => 1) ⟨"f1", "CIF Arena", 7, "Open Rec Skate", fun _ => true⟩
      [⟨"Open Rec", "s", "e"⟩] [⟨"Open Rec", "s", "e"⟩] 0).changes.lookup
      ChangeType.CANCELLED = some [] ∧
    (detect (fun _ => 1) ⟨"f1", "CIF Arena", 7, "Open Rec Skate", fun _ => true⟩
      [⟨"Open Rec", "s", "e"⟩] [⟨"Open Rec", "s", "e"⟩] 0).changes.lookup
      ChangeType.NEW ≠ none :=
  no_change_explicit_empty (fun _ => 1) _ _ _ 0 (by decide) (by decide)

/-- The Discord error-collecting fold, characterised as a `filterMap`:
one error record per webhook whose response status is not 204. -/
lemma discord_errors_spec (respond : String → HttpResponse) (urls : List String) :
    ∀ acc : List DeliveryError,
      urls.foldl (discord_step respond) acc =
      acc ++ urls.filterMap (fun url =>
        if (respond url).status_code ≠ 204 then
          some (discord_error_record (respond url).status_code url (respond url).text)
        else none) := by
  induction urls with
  | nil => intro acc; simp
  | cons url rest ih =>
    intro acc
    rw [List.foldl_cons, ih]
    simp only [discord_step, List.filterMap_cons]
    by_cases h : (respond url).status_code = 204
    · simp [h]
    · simp [h, List.append_assoc]

/-- An all-successful Telegram send loop reaches every subscriber. -/
lemma telegram_loop_ok (send : Int → Except String Unit) (subs : List Int)
    (h : ∀ x ∈ subs, send x = Except.ok ()) :
    telegram_send_loop send subs = (subs, Except.ok ()) := by
  induction subs with
  | nil => rfl
  | cons c cs ih =>
    have hc : send c = Except.ok () := h c (List.mem_cons_self c cs)
    have ihc := ih (fun x hx => h x (List.mem_cons_of_mem c hx))
    simp [telegram_send_loop, hc, ihc]

/-- A failing Telegram send aborts the loop: the failing subscriber is the
last one attempted and the error propagates. -/
lemma telegram_loop_abort (send : Int → Except String Unit) (pre : List Int)
    (c : Int) (post : List Int) (e : String)
    (hpre : ∀ x ∈ pre, send x = Except.ok ()) (hc : send c = Except.error e) :
    telegram_send_loop send (pre ++ c :: post) = (pre ++ [c], Except.error e) := by
  induction pre with
  | nil => simp [telegram_send_loop, hc]
  | cons a as ih =>
    have ha : send a = Except.ok () := hpre a (List.mem_cons_self a as)
    have ihc := ih (fun x hx => hpre x (List.mem_cons_of_mem a hx))
    simp [telegram_send_loop, ha, ihc]

/-- C7 (amended): Discord delivery attempts every webhook URL regardless
of failures and collects exactly one structured error record per failing
webhook, referencing that URL; Telegram delivery attempts every
subscriber only while sends succeed — a raised send error propagates,
aborting the remaining subscribers without producing error records. -/
theorem delivery_failure_isolation :
    (∀ (webhook_urls : List String) (respond : String → HttpResponse),
      (send_discord_message webhook_urls respond).1 = webhook_urls ∧
      (send_discord_message webhook_urls respond).2 =
        webhook_urls.filterMap (fun url =>
          if (respond url).status_code ≠ 204 then
            some (discord_error_record (respond url).status_code url
              (respond url).text)
          else none)) ∧
    (∀ (token : String) (send : Int → Except String Unit) (subs : List Int),
      token ≠ "" → (∀ x ∈ subs, send x = Except.ok ()) →
      send_telegram_updates token subs send = (subs, Except.ok [])) ∧
    (∀ (token : String) (send : Int → Except String Unit) (pre : List Int)
        (c : Int) (post : List Int) (e : String),
      token ≠ "" → (∀ x ∈ pre, send x = Except.ok ()) →
      send c = Except.error e →
      send_telegram_updates token (pre ++ c :: post) send =
        (pre ++ [c], Except.error e)) := by
  refine ⟨?_, ?_, ?_⟩
  · intro webhook_urls respond
    exact ⟨rfl, by simpa [send_discord_message] using
      discord_errors_spec respond webhook_urls []⟩
  · intro token send subs htoken hok
    simp [send_telegram_updates, htoken, telegram_loop_ok send subs hok, Except.map]
  · intro token send pre c post e htoken hpre hc
    simp [send_telegram_updates, htoken,
      telegram_loop_abort send pre c post e hpre hc, Except.map]

/-- Counterexample for C7 as stated: with a configured token and two
Telegram subscribers where the first send raises, the second subscriber is
never attempted, and the failure propagates as a raised error rather than
being collected into a returned error list. -/
theorem delivery_failure_isolation_counterexample :
    send_telegram_updates "token" [1, 2]
        (fun chat_id => if chat_id = 1 then Except.error "Forbidden"
          else Except.ok ()) =
      ([1], Except.error "Forbidden") ∧
    (2 : Int) ∉ (send_telegram_updates "token" [1, 2]
        (fun chat_id => if chat_id = 1 then Except.error "Forbidden"
          else Except.ok ())).1 :=
  ⟨rfl, by decide⟩

/-- Witness for C7 (amended) at concrete inputs: two Discord webhooks with
one failing produce exactly one error record referencing the failing URL
while both are attempted; an all-ok Telegram send reaches its subscriber;
a failing Telegram send stops at the failing subscriber. -/
theorem delivery_failure_isolation_witness :
    ((send_discord_message ["ok_url", "bad_url"]
        (fun url => if url = "bad_url" then ⟨500, "boom"⟩ else ⟨204, ""⟩)).1 =
      ["ok_url", "bad_url"] ∧
     (send_discord_message ["ok_url", "bad_url"]
        (fun url => if url = "bad_url" then ⟨500, "boom"⟩ else ⟨204, ""⟩)).2 =
      ["ok_url", "bad_url"].filterMap (fun url =>
        if ((fun url => if url = "bad_url" then (⟨500, "boom"⟩ : HttpResponse)
              else ⟨204, ""⟩) url).status_code ≠ 204 then
          some (discord_error_record
            ((fun url => if url = "bad_url" then (⟨500, "boom"⟩ : HttpResponse)
              else ⟨204, ""⟩) url).status_code url
            ((fun url => if url = "bad_url" then (⟨500, "boom"⟩ : HttpResponse)
              else ⟨204, ""⟩) url).text)
        else none)) ∧
    send_telegram_updates "token" [5] (fun _ => Except.ok ()) =
      ([5], Except.ok []) ∧
    send_telegram_updates "token" ([3] ++ 4 :: [5])
        (fun c => if c = 4 then Except.error "boom" else Except.ok ()) =
      ([3] ++ [4], Except.error "boom") :=
  ⟨delivery_failure_isolation.1 _ _,
   delivery_failure_isolation.2.1 "token" _ [5] (by decide) (fun x hx => rfl),
   delivery_failure_isolation.2.2 "token" _ [3] 4 [5] "boom" (by decide)
     (fun x hx => by
       rw [List.mem_singleton] at hx
       subst hx
       rfl)
     rfl⟩

/-- C2: when the run has changes and the Discord fanout returns a
non-empty error list, `lambda_handler` issues zero `put` calls and
returns the 500 failure response carrying exactly the collected errors. -/
theorem fanout_error_blocks_persistence
    (cfgs : List EventConfig) (tableGet : String → Option (List Entry))
    (fetch : ReqParam → Except String (List Entry)) (parse : String → Int)
    (now : Int) (now_iso fmtStart : String) (fmtEnd : Nat → String)
    (webhook_urls : List String) (respond : String → HttpResponse)
    (calendar_data : List (ReqParam × List Entry))
    (hfetch : collect_calendar_data fetch (issued_fetch_params cfgs fmtStart fmtEnd) =
      Except.ok calendar_data)
    (hchanges : (changes_list_of parse now now_iso cfgs (stored_list_of tableGet cfgs)
        (current_list_of calendar_data cfgs (make_req_params cfgs fmtStart fmtEnd))).any
        (fun ch => !ch.isEmpty) = true)
    (herr : (send_discord_message webhook_urls respond).2 ≠ []) :
    lambda_handler cfgs tableGet fetch parse now now_iso fmtStart fmtEnd
        webhook_urls respond =
      ⟨⟨500, HandlerBody.deliveryErrors (send_discord_message webhook_urls respond).2⟩,
        webhook_urls, []⟩ := by
  simp only [lambda_handler, hfetch, hchanges, if_true]
  rw [if_pos herr]
  simp [send_discord_message]

/-- Witness for C2: one config, previous snapshot absent, one fetched
future entry (so the diff is non-empty), and the single webhook answering
500 — the run returns the delivery failure carrying that error record and
issues no put. -/
theorem fanout_error_blocks_persistence_witness :
    lambda_handler [⟨"f1", "CIF Arena", 7, "Open Rec Skate", fun _ => true⟩]
        (fun _ => none)
        (fun _ => Except.ok
          [⟨"Open Rec", "2024-01-01T12:00:00", "2024-01-01T13:00:00"⟩])
        (fun _ => 1) 0 "t" "s" (fun _ => "e") ["u"] (fun _ => ⟨500, "boom"⟩) =
      ⟨⟨500, HandlerBody.deliveryErrors
          (send_discord_message ["u"] (fun _ => ⟨500, "boom"⟩)).2⟩,
        ["u"], []⟩ :=
  fanout_error_blocks_persistence _ _ _ _ _ _ _ _ _ _ _ rfl rfl (by decide)

/-- C5: a calendar fetch answering a non-200 status fails with the
source's error message; any failing fetch among the issued ones fails the
whole collection; and a failed collection makes `lambda_handler` return
the 500 fetch-failure response carrying the underlying error message, with
no Discord post attempted and no snapshot persisted. -/
theorem fetch_failure_aborts :
    (∀ (respond : ReqParam → HttpResponse)
        (parse_json : String → Except String (List Entry)) (rp : ReqParam),
      (respond rp).status_code ≠ 200 →
      get_calendar_data respond parse_json rp =
        Except.error ("Error: could not get calendar data for facility " ++
          rp.facility_id ++ " (status code " ++
          toString (respond rp).status_code ++ ")")) ∧
    (∀ (fetch : ReqParam → Except String (List Entry)) (ps : List ReqParam),
      (∃ p ∈ ps, ∃ err, fetch p = Except.error err) →
      ∃ e, collect_calendar_data fetch ps = Except.error e) ∧
    (∀ (cfgs : List EventConfig) (tableGet : String → Option (List Entry))
        (fetch : ReqParam → Except String (List Entry)) (parse : String → Int)
        (now : Int) (now_iso fmtStart : String) (fmtEnd : Nat → String)
        (webhook_urls : List String) (respond : String → HttpResponse) (e : String),
      collect_calendar_data fetch (issued_fetch_params cfgs fmtStart fmtEnd) =
        Except.error e →
      lambda_handler cfgs tableGet fetch parse now now_iso fmtStart fmtEnd
          webhook_urls respond =
        ⟨⟨500, HandlerBody.fetchError "Error: could not get calendar data" e⟩,
          [], []⟩) := by
  refine ⟨?_, ?_, ?_⟩
  · intro respond parse_json rp h
    simp only [get_calendar_data]
    rw [if_pos h]
  · intro fetch ps h
    induction ps with
    | nil =>
      obtain ⟨p, hp, _⟩ := h
      exact absurd hp (List.not_mem_nil p)
    | cons q qs ih =>
      obtain ⟨p, hp, err, herr⟩ := h
      rcases List.mem_cons.mp hp with rfl | hp'
      · exact ⟨err, by simp [collect_calendar_data, herr]⟩
      · cases hq : fetch q with
        | error e => exact ⟨e, by simp [collect_calendar_data, hq]⟩
        | ok v =>
          obtain ⟨e, he⟩ := ih ⟨p, hp', err, herr⟩
          exact ⟨e, by simp [collect_calendar_data, hq, he]⟩
  · intro cfgs tableGet fetch parse now now_iso fmtStart fmtEnd webhook_urls
      respond e hcol
    simp [lambda_handler, hcol]

/-- Witness for C5: a single config whose fetch answers status 500 — the
individual fetch fails with the status message, the collection fails, and
the run aborts with that message as the underlying error, attempting no
webhook and issuing no put. -/
theorem fetch_failure_aborts_witness :
    get_calendar_data (fun _ => ⟨500, "boom"⟩) (fun _ => Except.ok []) ⟨"f1", "s", "e"⟩ =
      Except.error ("Error: could not get calendar data for facility " ++
        "f1" ++ " (status code " ++
        toString (((fun _ => (⟨500, "boom"⟩ : HttpResponse)) (⟨"f1", "s", "e"⟩ : ReqParam))).status_code ++ ")") ∧
    (∃ e, collect_calendar_data
      (get_calendar_data (fun _ => ⟨500, "boom"⟩) (fun _ => Except.ok []))
      [⟨"f1", "s", "e"⟩] = Except.error e) ∧
    lambda_handler [⟨"f1", "CIF Arena", 7, "Open Rec Skate", fun _ => true⟩]
        (fun _ => none)
        (get_calendar_data (fun _ => ⟨500, "boom"⟩) (fun _ => Except.ok []))
        (fun _ => 1) 0 "t" "s" (fun _ => "e") ["u"] (fun _ => ⟨204, ""⟩) =
      ⟨⟨500, HandlerBody.fetchError "Error: could not get calendar data"
          "Error: could not get calendar data for facility f1 (status code 500)"⟩,
        [], []⟩ :=
  ⟨fetch_failure_aborts.1 _ _ _ (by decide),
   fetch_failure_aborts.2.1 _ [⟨"f1", "s", "e"⟩]
     ⟨⟨"f1", "s", "e"⟩, by decide,
      "Error: could not get calendar data for facility f1 (status code 500)", rfl⟩,
   fetch_failure_aborts.2.2 _ _ _ (fun _ => 1) 0 "t" "s" (fun _ => "e") ["u"]
     (fun _ => ⟨204, ""⟩) _ rfl⟩

end UWFN
